import Mathlib

/-!
Shallow embedding of the Stylus native runtime entry points, from
`src/arbitrator/stylus/src/lib.rs` (stylus_activate, stylus_call,
stylus_cache_module) and `src/arbitrator/stylus/src/native.rs`
(the host-bridge closures installed by set_go_api, and the
MeteredMachine implementation for NativeInstance).

External effects (the wasmer run, the Go-side operation handlers,
`native::activate`, `InitCache::insert`) are modelled as explicit
parameters; the control flow, out-parameter writes and classification
logic of the two source files are embedded directly.
-/

namespace Stylus

/-- Byte strings crossing the FFI boundary (`Vec<u8>` / `GoSliceData`). -/
abbrev Bytes := List Nat

/-- A 32-byte word (`Bytes32`); length is not tracked, none of the
embedded code inspects it. -/
abbrev Bytes32 := List Nat

/-- A 20-byte contract address (`Bytes20`). -/
abbrev Bytes20 := List Nat

/-- Modelled from the spec: the pricing ratio `ink_per_gas` of `MeterState`
is a rational, written `inkPerGasNum / inkPerGasDen`; the pricing type
lives in `prover::programs` which is not under src/. -/
structure Pricing where
  inkPerGasNum : Nat
  inkPerGasDen : Nat
deriving DecidableEq, Repr

/-- Modelled from the spec: `gas_to_ink(g) = floor(g * ink_per_gas)`
(flooring, never negative); the implementation lives in
`prover::programs` which is not under src/. -/
def gas_to_ink (p : Pricing) (g : Nat) : Nat :=
  g * p.inkPerGasNum / p.inkPerGasDen

/-- Modelled from the spec: `ink_to_gas(i) = floor(i / ink_per_gas)`
(flooring, never negative); the implementation lives in
`prover::programs` which is not under src/. -/
def ink_to_gas (p : Pricing) (i : Nat) : Nat :=
  i * p.inkPerGasDen / p.inkPerGasNum

/-- `UserOutcomeKind`: the status code returned across the boundary
(declared in arbutil; variants per the spec's UserOutcome taxonomy). -/
inductive UserOutcomeKind
  | Success
  | Revert
  | Failure
  | OutOfInk
  | OutOfStack
deriving DecidableEq, Repr

/-- `UserOutcome`: the classified outcome of a run (declared in arbutil;
variants per the spec: Success(bytes), Revert(bytes), Failure(message),
OutOfInk, OutOfStack). -/
inductive UserOutcome
  | Success (data : Bytes)
  | Revert (data : Bytes)
  | Failure (msg : Bytes)
  | OutOfInk
  | OutOfStack
deriving DecidableEq, Repr

/-- Modelled from the spec: `UserOutcome::into_data` (arbutil, not under
src/) splits an outcome into its status code and payload bytes; the
resource-exhaustion codes carry no message payload. -/
def UserOutcome.into_data : UserOutcome → UserOutcomeKind × Bytes
  | .Success d => (.Success, d)
  | .Revert d => (.Revert, d)
  | .Failure m => (.Failure, m)
  | .OutOfInk => (.OutOfInk, [])
  | .OutOfStack => (.OutOfStack, [])

/-! ## stylus_activate (lib.rs) -/

/-- Modelled from the spec: a compiled module as `native::activate`
returns it (prover's Module is not under src/) — its serialized bytes
(`into_bytes`) and its consensus content hash (`hash`). -/
structure ModuleRep where
  hash : Bytes32
  bytes : Bytes
deriving DecidableEq, Repr

/-- Modelled from the spec: ActivationMetadata (`StylusData`, prover,
not under src/) — footprint/cost data computed once at activation. -/
structure StylusData where
  footprint : Nat
  init_cost : Nat
  version : Nat
deriving DecidableEq, Repr

/-- Modelled from the spec: the Module Cache content (src's cache module
is not under src/), keyed by (content hash, version, debug) with artifact
bytes; its exact shape is irrelevant to the claims below, which only ask
whether it changes. -/
abbrev CacheState := List (Bytes32 × Nat × Bool × Bytes)

/-- The observable behaviour of `native::activate` (not under src/;
modelled from the spec): it either returns the (asm, module, metadata)
triple or an error, and in both cases leaves a final value in the gas
budget it was handed by mutable reference. -/
structure ActivateOracle where
  result : Except Bytes (Bytes × ModuleRep × StylusData)
  gasLeft : Nat

/-- The state `stylus_activate` can write through its out-pointers
(`output`, `asm_len`, `module_hash`, `stylus_data`, `gas`), plus the
process-wide Module Cache, carried to express frame conditions. -/
structure ActivateState where
  output : Bytes
  asmLen : Nat
  moduleHash : Bytes32
  stylusData : StylusData
  gas : Nat
  cache : CacheState
deriving DecidableEq, Repr

/-- Embedding of `stylus_activate` (lib.rs lines 137-165). The call to
`native::activate` is the oracle `o`; `o.gasLeft` is what it leaves in
`*gas`. On error, `output.write_err` stores the error bytes and the
status is Failure; on success the out-parameters are filled and `output`
receives the asm bytes extended with the module bytes. The entry point
never references the Module Cache. -/
def stylus_activate (o : ActivateOracle) (s : ActivateState) :
    UserOutcomeKind × ActivateState :=
  let s := { s with gas := o.gasLeft }
  match o.result with
  | .error err => (UserOutcomeKind.Failure, { s with output := err })
  | .ok (asm, m, info) =>
      (UserOutcomeKind.Success,
       { s with
          asmLen := asm.length
          moduleHash := m.hash
          stylusData := info
          output := asm ++ m.bytes })

/-! ## stylus_call (lib.rs) -/

/-- The observable behaviour of the external steps of `stylus_call`:
`deser` is the result of `NativeInstance::deserialize_cached` (wasmer
deserialization, the instance itself stays abstract); `run` is
`instance.run_main` as a function of the ink budget it is given, its
error bytes being the rendering `write_err` would store; `inkLeft` is
`instance.ink_left().into()` after running with that budget. -/
structure CallOracle where
  deser : Except Bytes Unit
  run : Nat → Except Bytes UserOutcome
  inkLeft : Nat → Nat

/-- The status/output classification of `stylus_call` (lib.rs lines
200-203): a run error or an `Ok(Failure)` outcome both go through
`write_err` and report Failure with the error bytes; every other
outcome is split by `into_data`. -/
def run_status (o : CallOracle) (ink : Nat) : UserOutcomeKind × Bytes :=
  match o.run ink with
  | .error e => (UserOutcomeKind.Failure, e)
  | .ok (.Failure e) => (UserOutcomeKind.Failure, e)
  | .ok outcome => outcome.into_data

/-- Embedding of `stylus_call` (lib.rs lines 174-210). The result is
`none` when the process aborts (`util::panic_with_wasm` on a failed
deserialization), otherwise `some (status, output bytes, gas written
back)`. `ink_left` is forced to 0 on OutOfStack (the source's
`match status` with that single special case), else read from the
instance's meter; `*gas` receives `ink_to_gas` of it. -/
def stylus_call (p : Pricing) (o : CallOracle) (gas : Nat) :
    Option (UserOutcomeKind × Bytes × Nat) :=
  let ink := gas_to_ink p gas
  match o.deser with
  | .error _ => none
  | .ok _ =>
    let so := run_status o ink
    let ink_left := if so.1 = UserOutcomeKind.OutOfStack then 0 else o.inkLeft ink
    some (so.1, so.2, ink_to_gas p ink_left)

/-! ## stylus_cache_module (lib.rs) -/

/-- Embedding of `stylus_cache_module` (lib.rs lines 218-227). The
result of `InitCache::insert` (the cache module is not under src/) is
the parameter: the entry point panics — modelled as `none` — whenever
insert reports an error, and its return type carries no error channel
(`Option Unit`, `some ()` being the normal `void` return). -/
def stylus_cache_module (insertResult : Except Bytes Unit) : Option Unit :=
  match insertResult with
  | .error _ => none
  | .ok _ => some ()

/-! ## Host-bridge closures (native.rs, set_go_api) -/

/-- `GoApiStatus`: the binary status code reported by every external
operation handler. -/
inductive GoApiStatus
  | Success
  | Failure
deriving DecidableEq, Repr

/-- What the external `set_bytes32` handler leaves behind: its status,
the cost written through the cost pointer, and the bytes written into
the error vector. -/
structure SetBytes32Reply where
  status : GoApiStatus
  cost : Nat
  error : Bytes
deriving DecidableEq, Repr

/-- Embedding of the `set_bytes32` closure (native.rs lines 173-182):
the error vector is recovered unconditionally (always dropped), then
Success yields `Ok(cost)` and Failure yields an error carrying the
handler's error bytes (the source renders them with lossy UTF-8; the
bytes are kept as the message here). -/
def set_bytes32_closure (handler : Bytes32 → Bytes32 → SetBytes32Reply)
    (key value : Bytes32) : Except Bytes Nat :=
  let r := handler key value
  let error := r.error
  match r.status with
  | .Success => .ok r.cost
  | .Failure => .error error

/-- What the external `emit_log` handler leaves behind: its status and
the contents of the data vector after the call (the handler reuses the
buffer that carried the log data to return error bytes on failure). -/
structure EmitLogReply where
  status : GoApiStatus
  buffer : Bytes
deriving DecidableEq, Repr

/-- Embedding of the `emit_log` closure (native.rs lines 225-233): the
buffer is recovered unconditionally (always dropped), then Success
yields `Ok(())` and Failure yields an error carrying the bytes the
handler left in the buffer. -/
def emit_log_closure (handler : Bytes → Nat → EmitLogReply)
    (data : Bytes) (topics : Nat) : Except Bytes Unit :=
  let r := handler data topics
  let error := r.buffer
  match r.status with
  | .Success => .ok ()
  | .Failure => .error error

/-- What an external contract-call handler leaves behind: the value left
in the in-place gas allowance (which becomes the call's cost), the
produced return-data length, and the binary status code. -/
structure CallReply where
  call_gas : Nat
  return_data_len : Nat
  status : GoApiStatus
deriving DecidableEq, Repr

/-- Embedding of the `contract_call` closure (native.rs lines 183-195):
`call_gas` is initialized to the caller-supplied `evm_gas`, the handler
receives it by reference together with the value to transfer, and the
closure returns the handler's outputs verbatim. -/
def contract_call_closure (handler : Bytes20 → Bytes → Nat → Bytes32 → CallReply)
    (contract : Bytes20) (calldata : Bytes) (evm_gas : Nat) (value : Bytes32) :
    Nat × Nat × GoApiStatus :=
  let call_gas := evm_gas
  let r := handler contract calldata call_gas value
  (r.return_data_len, r.call_gas, r.status)

/-- Embedding of the `delegate_call` closure (native.rs lines 196-207):
as `contract_call` but with no value-transfer argument. -/
def delegate_call_closure (handler : Bytes20 → Bytes → Nat → CallReply)
    (contract : Bytes20) (calldata : Bytes) (evm_gas : Nat) :
    Nat × Nat × GoApiStatus :=
  let call_gas := evm_gas
  let r := handler contract calldata call_gas
  (r.return_data_len, r.call_gas, r.status)

/-- Embedding of the `static_call` closure (native.rs lines 208-219):
as `contract_call` but with no value-transfer argument. -/
def static_call_closure (handler : Bytes20 → Bytes → Nat → CallReply)
    (contract : Bytes20) (calldata : Bytes) (evm_gas : Nat) :
    Nat × Nat × GoApiStatus :=
  let call_gas := evm_gas
  let r := handler contract calldata call_gas
  (r.return_data_len, r.call_gas, r.status)

/-! ## MeteredMachine for NativeInstance (native.rs) -/

/-- The two metering globals of a native instance:
`STYLUS_GAS_LEFT` (u64) and `STYLUS_GAS_STATUS` (u32). -/
structure MeterGlobals where
  stylus_gas_left : Nat
  stylus_gas_status : Nat
deriving DecidableEq, Repr

/-- `MachineMeter` (prover prelude): a live meter reading. -/
inductive MachineMeter
  | Ready (gas : Nat)
  | Exhausted
deriving DecidableEq, Repr

/-- Embedding of `gas_left` (native.rs lines 262-270): status 0 reports
Ready with the gas-left global, any other status reports Exhausted
without consulting the gas-left global. -/
def gas_left (s : MeterGlobals) : MachineMeter :=
  match s.stylus_gas_status with
  | 0 => MachineMeter.Ready s.stylus_gas_left
  | _ => MachineMeter.Exhausted

/-- Embedding of `set_gas` (native.rs lines 272-275): writes the gas-left
global and unconditionally resets the status global to 0. -/
def set_gas (s : MeterGlobals) (gas : Nat) : MeterGlobals :=
  { s with stylus_gas_left := gas, stylus_gas_status := 0 }

/-! ## Helper lemmas -/

/-- Converting zero ink yields zero gas, for every pricing ratio. -/
theorem ink_to_gas_zero (p : Pricing) : ink_to_gas p 0 = 0 := by
  simp [ink_to_gas]

/-- `ink_to_gas` is monotone in the ink amount. -/
theorem ink_to_gas_mono (p : Pricing) {i j : Nat} (h : i ≤ j) :
    ink_to_gas p i ≤ ink_to_gas p j :=
  Nat.div_le_div_right (Nat.mul_le_mul_right _ h)

/-! ## C1 -/

/-- C1: in every `stylus_call` whose outcome is OutOfStack, the gas
written back is exactly 0 (ink_remaining forced to zero) regardless of
the live meter value; for every other outcome the written-back gas is
`ink_to_gas` of the instance's remaining ink. -/
theorem stylus_call_out_of_stack_zero_gas (p : Pricing) (o : CallOracle)
    (g : Nat) (k : UserOutcomeKind) (outs : Bytes) (gasOut : Nat)
    (h : stylus_call p o g = some (k, outs, gasOut)) :
    (k = UserOutcomeKind.OutOfStack → gasOut = 0) ∧
    (k ≠ UserOutcomeKind.OutOfStack →
      gasOut = ink_to_gas p (o.inkLeft (gas_to_ink p g))) := by
  cases hd : o.deser with
  | error e => simp [stylus_call, hd] at h
  | ok u =>
    simp only [stylus_call, hd, Option.some.injEq, Prod.mk.injEq] at h
    obtain ⟨hk, -, hgas⟩ := h
    subst hk
    constructor
    · intro hos
      rw [if_pos hos] at hgas
      rw [← hgas, ink_to_gas_zero]
    · intro hos
      rw [if_neg hos] at hgas
      exact hgas.symm

/-- A concrete oracle whose run traps on stack depth with a nonzero
live meter reading. -/
def oracleOutOfStack : CallOracle :=
  ⟨Except.ok (), fun _ => Except.ok UserOutcome.OutOfStack, fun _ => 7⟩

theorem stylus_call_out_of_stack_zero_gas_witness :
    (UserOutcomeKind.OutOfStack = UserOutcomeKind.OutOfStack → (0 : Nat) = 0) ∧
    (UserOutcomeKind.OutOfStack ≠ UserOutcomeKind.OutOfStack →
      (0 : Nat) = ink_to_gas ⟨2, 1⟩ (oracleOutOfStack.inkLeft (gas_to_ink ⟨2, 1⟩ 10))) :=
  stylus_call_out_of_stack_zero_gas ⟨2, 1⟩ oracleOutOfStack 10
    UserOutcomeKind.OutOfStack [] 0 (by decide)

/-! ## C3 -/

/-- C3: when the defensive re-validation performed by `InitCache::insert`
fails, `stylus_cache_module` aborts the process (modelled `none`) rather
than returning; on a successful insert it returns normally, and its type
offers no recoverable-error channel at all. -/
theorem stylus_cache_module_aborts_on_bad_asm (e : Bytes) :
    stylus_cache_module (Except.error e) = none ∧
    stylus_cache_module (Except.ok ()) = some () :=
  ⟨rfl, rfl⟩

/-! ## C7 -/

/-- C7: each contract-call closure initializes the in-place allowance to
the caller-supplied gas, hands it to the external handler, and returns
the handler's final allowance (the call's cost), produced-output length
and binary status verbatim; only the normal call kind takes a
value-transfer argument. -/
theorem call_closures_passthrough
    (hc : Bytes20 → Bytes → Nat → Bytes32 → CallReply)
    (hd hs : Bytes20 → Bytes → Nat → CallReply)
    (contract : Bytes20) (calldata : Bytes) (evm_gas : Nat) (value : Bytes32) :
    contract_call_closure hc contract calldata evm_gas value =
      ((hc contract calldata evm_gas value).return_data_len,
       (hc contract calldata evm_gas value).call_gas,
       (hc contract calldata evm_gas value).status) ∧
    delegate_call_closure hd contract calldata evm_gas =
      ((hd contract calldata evm_gas).return_data_len,
       (hd contract calldata evm_gas).call_gas,
       (hd contract calldata evm_gas).status) ∧
    static_call_closure hs contract calldata evm_gas =
      ((hs contract calldata evm_gas).return_data_len,
       (hs contract calldata evm_gas).call_gas,
       (hs contract calldata evm_gas).status) :=
  ⟨rfl, rfl, rfl⟩

/-! ## C8 -/

/-- C8: `stylus_activate` leaves the Module Cache untouched on every
invocation, whether activation succeeds or fails; admission happens only
through the separate cache-insert entry point. -/
theorem stylus_activate_cache_frame (o : ActivateOracle) (s : ActivateState) :
    ((stylus_activate o s).2).cache = s.cache := by
  cases h : o.result with
  | error e => simp [stylus_activate, h]
  | ok v => obtain ⟨asm, m, info⟩ := v; simp [stylus_activate, h]

/-! ## C9 -/

/-- C9: for every meter state and every gas value, `set_gas g` followed
by `gas_left` reads `Ready g`: set_gas writes the gas-left global and
unconditionally clears the status global, and gas_left reports Exhausted
exactly when the status global is nonzero. -/
theorem set_gas_then_gas_left (s : MeterGlobals) (g : Nat) :
    gas_left (set_gas s g) = MachineMeter.Ready g := rfl

/-! ## C2 -/

/-- C2: conversion never manufactures resource —
`ink_to_gas (gas_to_ink g) ≤ g` for every gas amount, and in particular
the round-trip `stylus_call` performs (budget on entry, write-back on
exit) never reports more gas remaining than was supplied, whenever the
meter's remaining ink does not exceed the supplied budget. -/
theorem ink_gas_never_manufactures (p : Pricing) (hp : 0 < p.inkPerGasNum)
    (g : Nat) :
    ink_to_gas p (gas_to_ink p g) ≤ g ∧
    ∀ (o : CallOracle) (k : UserOutcomeKind) (outs : Bytes) (gasOut : Nat),
      o.inkLeft (gas_to_ink p g) ≤ gas_to_ink p g →
      stylus_call p o g = some (k, outs, gasOut) → gasOut ≤ g := by
  have part1 : ink_to_gas p (gas_to_ink p g) ≤ g := by
    unfold ink_to_gas gas_to_ink
    calc g * p.inkPerGasNum / p.inkPerGasDen * p.inkPerGasDen / p.inkPerGasNum
        ≤ g * p.inkPerGasNum / p.inkPerGasNum :=
          Nat.div_le_div_right (Nat.div_mul_le_self _ _)
      _ = g := Nat.mul_div_cancel g hp
  refine ⟨part1, ?_⟩
  intro o k outs gasOut hle h
  cases hd : o.deser with
  | error e => simp [stylus_call, hd] at h
  | ok u =>
    simp only [stylus_call, hd, Option.some.injEq, Prod.mk.injEq] at h
    obtain ⟨-, -, hgas⟩ := h
    rw [← hgas]
    by_cases hos : (run_status o (gas_to_ink p g)).1 = UserOutcomeKind.OutOfStack
    · rw [if_pos hos, ink_to_gas_zero]
      exact Nat.zero_le g
    · rw [if_neg hos]
      exact le_trans (ink_to_gas_mono p hle) part1

/-- A concrete oracle whose run succeeds and whose meter reports the
whole budget as remaining (the worst case for conservation). -/
def oracleRoundtrip : CallOracle :=
  ⟨Except.ok (), fun _ => Except.ok (UserOutcome.Success []), fun n => n⟩

theorem ink_gas_never_manufactures_witness :
    0 < Pricing.inkPerGasNum ⟨3, 2⟩ ∧
    ink_to_gas ⟨3, 2⟩ (gas_to_ink ⟨3, 2⟩ 7) ≤ 7 ∧ (6 : Nat) ≤ 7 := by
  have h := ink_gas_never_manufactures ⟨3, 2⟩ (by decide) 7
  exact ⟨by decide, h.1,
    h.2 oracleRoundtrip UserOutcomeKind.Success [] 6 (by decide) (by decide)⟩

/-! ## C4 -/

/-- C4: when the external handler of a host-bridge operation reports
Failure, the bridge closure returns an error carrying exactly the
handler's error bytes (terminating the run as a Failure); on Success
the closure returns the reported cost (set_bytes32) or unit (emit_log)
and no error. -/
theorem bridge_failure_carries_error_bytes
    (sh : Bytes32 → Bytes32 → SetBytes32Reply)
    (lh : Bytes → Nat → EmitLogReply)
    (key value : Bytes32) (data : Bytes) (topics : Nat) :
    ((sh key value).status = GoApiStatus.Failure →
      set_bytes32_closure sh key value = Except.error (sh key value).error) ∧
    ((sh key value).status = GoApiStatus.Success →
      set_bytes32_closure sh key value = Except.ok (sh key value).cost) ∧
    ((lh data topics).status = GoApiStatus.Failure →
      emit_log_closure lh data topics = Except.error (lh data topics).buffer) ∧
    ((lh data topics).status = GoApiStatus.Success →
      emit_log_closure lh data topics = Except.ok ()) := by
  refine ⟨?_, ?_, ?_, ?_⟩ <;> intro h <;>
    simp [set_bytes32_closure, emit_log_closure, h]

/-! ## C5 -/

/-- C5: every successful `stylus_activate` writes the asm segment
followed by the compiled-module segment into the output buffer, sets
`asm_len` to the asm segment's exact byte length, fills the remaining
out-parameters, and returns Success. -/
theorem stylus_activate_success_layout (o : ActivateOracle) (s : ActivateState)
    (asm : Bytes) (m : ModuleRep) (info : StylusData)
    (h : o.result = Except.ok (asm, m, info)) :
    stylus_activate o s =
      (UserOutcomeKind.Success,
       { output := asm ++ m.bytes, asmLen := asm.length, moduleHash := m.hash,
         stylusData := info, gas := o.gasLeft, cache := s.cache }) := by
  cases s
  simp [stylus_activate, h]

/-- A concrete successful activation oracle. -/
def actOracleOk : ActivateOracle :=
  ⟨Except.ok ([1, 2], ⟨[9], [3, 4]⟩, ⟨1, 2, 3⟩), 5⟩

/-- A blank out-parameter state. -/
def actStateZero : ActivateState := ⟨[], 0, [], ⟨0, 0, 0⟩, 0, []⟩

theorem stylus_activate_success_layout_witness :
    stylus_activate actOracleOk actStateZero =
      (UserOutcomeKind.Success,
       { output := [1, 2] ++ [3, 4], asmLen := [1, 2].length, moduleHash := [9],
         stylusData := ⟨1, 2, 3⟩, gas := 5, cache := [] }) :=
  stylus_activate_success_layout actOracleOk actStateZero
    [1, 2] ⟨[9], [3, 4]⟩ ⟨1, 2, 3⟩ rfl

/-! ## C6 -/

/-- C6: when deserializing the supplied artifact bytes fails,
`stylus_call` aborts the process (modelled `none`): no status code or
error message is returned through the normal path. -/
theorem stylus_call_bad_module_aborts (p : Pricing) (o : CallOracle)
    (g : Nat) (e : Bytes) (h : o.deser = Except.error e) :
    stylus_call p o g = none := by
  simp [stylus_call, h]

/-- A concrete oracle whose deserialization step fails. -/
def oracleBadModule : CallOracle :=
  ⟨Except.error [1], fun _ => Except.ok UserOutcome.OutOfInk, fun _ => 0⟩

theorem stylus_call_bad_module_aborts_witness :
    stylus_call ⟨1, 1⟩ oracleBadModule 5 = none :=
  stylus_call_bad_module_aborts ⟨1, 1⟩ oracleBadModule 5 [1] rfl

/-! ## C10 -/

/-- C10: when activation fails, `stylus_activate` writes only the output
buffer (the error bytes) and the gas out-parameter; `asm_len`,
`module_hash` and `stylus_data` keep their prior values and the status
is Failure. -/
theorem stylus_activate_failure_frame (o : ActivateOracle) (s : ActivateState)
    (err : Bytes) (h : o.result = Except.error err) :
    stylus_activate o s =
      (UserOutcomeKind.Failure,
       { output := err, asmLen := s.asmLen, moduleHash := s.moduleHash,
         stylusData := s.stylusData, gas := o.gasLeft, cache := s.cache }) := by
  cases s
  simp [stylus_activate, h]

/-- A concrete failing activation oracle. -/
def actOracleErr : ActivateOracle := ⟨Except.error [7, 8], 3⟩

/-- A concrete out-parameter state with nonzero prior values. -/
def actStateOne : ActivateState := ⟨[0], 4, [5], ⟨6, 7, 8⟩, 9, [([1], 2, true, [3])]⟩

theorem stylus_activate_failure_frame_witness :
    stylus_activate actOracleErr actStateOne =
      (UserOutcomeKind.Failure,
       { output := [7, 8], asmLen := actStateOne.asmLen,
         moduleHash := actStateOne.moduleHash,
         stylusData := actStateOne.stylusData, gas := actOracleErr.gasLeft,
         cache := actStateOne.cache }) :=
  stylus_activate_failure_frame actOracleErr actStateOne [7, 8] rfl

end Stylus
